import Mathlib

/-!
Shallow embedding of the bin-packing visualizer's scene-synchronization core
(`BinVisualizer` component and `utils/geometry.js`), with theorems checking
the natural-language specification against it.  Numeric values are modelled
as rationals; JSON fields that may be absent or unparsable are modelled as
`Option` values (`none` = absent / `NaN`).
-/

namespace BinPacking

/-- Truncation toward zero, as JavaScript's `%` operator uses it. -/
def jsTrunc (q : ℚ) : ℤ := if 0 ≤ q then ⌊q⌋ else ⌈q⌉

/-- JavaScript's remainder `x % y`: `x - y * trunc (x / y)` (sign follows the
dividend). -/
def jsRem (x y : ℚ) : ℚ := x - y * (jsTrunc (x / y) : ℚ)

/-- The visualizer's test `Math.abs(r - 90) < 1 || Math.abs(r - 270) < 1`
deciding whether a normalized angle triggers a dimension swap. -/
def nearQuarter (r : ℚ) : Prop := |r - 90| < 1 ∨ |r - 270| < 1

instance (r : ℚ) : Decidable (nearQuarter r) := by
  unfold nearQuarter; infer_instance

/-- `getRotatedDimensions` from `BinVisualizer`: each angle is normalized with
`Math.abs(rot % 360)`; a near-90/270 angle about an axis swaps the two
dimensions orthogonal to that axis, applied in the order Z, then Y, then X. -/
def getRotatedDimensions (width height depth rotX rotY rotZ : ℚ) : ℚ × ℚ × ℚ :=
  let rx := |jsRem rotX 360|
  let ry := |jsRem rotY 360|
  let rz := |jsRem rotZ 360|
  let p1 := if nearQuarter rz then (height, width, depth) else (width, height, depth)
  let p2 := if nearQuarter ry then (p1.2.2, p1.2.1, p1.1) else p1
  let p3 := if nearQuarter rx then (p2.1, p2.2.2, p2.2.1) else p2
  p3

/-- Mathematical reduction of an angle modulo 360, landing in `[0, 360)`. -/
def mod360 (x : ℚ) : ℚ := x - 360 * (⌊x / 360⌋ : ℚ)

/-- Modelled from the spec's words (§4.1): angles are "normalized modulo 360"
and each axis swap fires exactly when the normalized angle is within 1 degree
of 90 or 270, applied in the order Z, then Y, then X. -/
def specEffectiveBounds (width height depth rotX rotY rotZ : ℚ) : ℚ × ℚ × ℚ :=
  let rx := mod360 rotX
  let ry := mod360 rotY
  let rz := mod360 rotZ
  let p1 := if nearQuarter rz then (height, width, depth) else (width, height, depth)
  let p2 := if nearQuarter ry then (p1.2.2, p1.2.1, p1.1) else p1
  let p3 := if nearQuarter rx then (p2.1, p2.2.2, p2.2.1) else p2
  p3

lemma mod360_eq_fract (x : ℚ) : mod360 x = 360 * Int.fract (x / 360) := by
  unfold mod360
  rw [← Int.self_sub_floor]
  ring

lemma mod360_nonneg (x : ℚ) : 0 ≤ mod360 x := by
  rw [mod360_eq_fract]
  have := Int.fract_nonneg (x / 360)
  linarith

lemma mod360_lt (x : ℚ) : mod360 x < 360 := by
  rw [mod360_eq_fract]
  have := Int.fract_lt_one (x / 360)
  linarith

/-- The absolute value of the JavaScript remainder is either the mathematical
residue itself or its reflection `360 - r`. -/
lemma abs_jsRem_cases (x : ℚ) :
    |jsRem x 360| = mod360 x ∨ |jsRem x 360| = 360 - mod360 x := by
  unfold jsRem jsTrunc
  by_cases h : 0 ≤ x / 360
  · left
    rw [if_pos h]
    have h0 : 0 ≤ x - 360 * (⌊x / 360⌋ : ℚ) := mod360_nonneg x
    rw [abs_of_nonneg h0]
    rfl
  · rw [if_neg h]
    rcases Int.fract_eq_zero_or_add_one_sub_ceil (x / 360) with hz | hc
    · left
      have hfl : x / 360 = ((⌊x / 360⌋ : ℤ) : ℚ) := by
        have := Int.self_sub_floor (x / 360)
        rw [hz] at this
        linarith
      have hceil : (⌈x / 360⌉ : ℤ) = ⌊x / 360⌋ := by
        rw [hfl, Int.ceil_intCast, Int.floor_intCast]
      rw [hceil]
      have hm : mod360 x = 0 := by
        rw [mod360_eq_fract, hz]; ring
      have : x - 360 * (⌊x / 360⌋ : ℚ) = mod360 x := rfl
      rw [this, hm, abs_zero]
    · right
      have hceil : ((⌈x / 360⌉ : ℤ) : ℚ) = (⌊x / 360⌋ : ℚ) + 1 := by
        have hfr : Int.fract (x / 360) = x / 360 - (⌊x / 360⌋ : ℚ) := rfl
        rw [hfr] at hc
        linarith
      have hmlt : mod360 x < 360 := mod360_lt x
      have hrem : x - 360 * ((⌈x / 360⌉ : ℤ) : ℚ) = mod360 x - 360 := by
        rw [hceil]; unfold mod360; ring
      rw [hrem, abs_of_nonpos (by linarith)]
      ring

/-- `nearQuarter` is invariant under the reflection `r ↦ 360 - r`, because it
exchanges the neighbourhoods of 90 and 270. -/
lemma nearQuarter_reflect (r : ℚ) : nearQuarter (360 - r) ↔ nearQuarter r := by
  unfold nearQuarter
  constructor
  · rintro (h | h)
    · right
      rw [abs_sub_lt_iff] at h ⊢
      constructor <;> linarith [h.1, h.2]
    · left
      rw [abs_sub_lt_iff] at h ⊢
      constructor <;> linarith [h.1, h.2]
  · rintro (h | h)
    · right
      rw [abs_sub_lt_iff] at h ⊢
      constructor <;> linarith [h.1, h.2]
    · left
      rw [abs_sub_lt_iff] at h ⊢
      constructor <;> linarith [h.1, h.2]

/-- The code's swap test on `Math.abs(rot % 360)` agrees with the spec's swap
test on the mathematical residue modulo 360. -/
lemma nearQuarter_jsRem (x : ℚ) :
    nearQuarter |jsRem x 360| ↔ nearQuarter (mod360 x) := by
  rcases abs_jsRem_cases x with h | h
  · rw [h]
  · rw [h, nearQuarter_reflect]

lemma getRotatedDimensions_eq_spec (w h d rx ry rz : ℚ) :
    getRotatedDimensions w h d rx ry rz = specEffectiveBounds w h d rx ry rz := by
  unfold getRotatedDimensions specEffectiveBounds
  simp only [nearQuarter_jsRem]

lemma jsRem_ninety : jsRem 90 360 = 90 := by
  norm_num [jsRem, jsTrunc]

lemma jsRem_zero : jsRem 0 360 = 0 := by
  norm_num [jsRem, jsTrunc]

lemma nearQuarter_ninety : nearQuarter 90 := by
  unfold nearQuarter
  norm_num

lemma not_nearQuarter_zero : ¬ nearQuarter 0 := by
  unfold nearQuarter
  norm_num

lemma getRotated_z90 (w h d : ℚ) : getRotatedDimensions w h d 0 0 90 = (h, w, d) := by
  simp [getRotatedDimensions, jsRem_ninety, jsRem_zero, nearQuarter_ninety,
    not_nearQuarter_zero, abs_of_nonneg]

lemma getRotated_x90 (w h d : ℚ) : getRotatedDimensions w h d 90 0 0 = (w, d, h) := by
  simp [getRotatedDimensions, jsRem_ninety, jsRem_zero, nearQuarter_ninety,
    not_nearQuarter_zero, abs_of_nonneg]

lemma getRotated_id (w h d : ℚ) : getRotatedDimensions w h d 0 0 0 = (w, h, d) := by
  simp [getRotatedDimensions, jsRem_zero, not_nearQuarter_zero, abs_of_nonneg]

/-- C2: the rotation transform normalizes each angle modulo 360 and applies
three independent swap decisions in the fixed order Z, Y, X to the running
(w,h,d) triple, swapping the two dimensions orthogonal to an axis exactly when
that axis's normalized angle is within 1 degree of 90 or 270; in particular
`effectiveBounds(w,h,d,0,0,90) = (h,w,d)`, `effectiveBounds(w,h,d,90,0,0) =
(w,d,h)` and `effectiveBounds(w,h,d,0,0,0) = (w,h,d)`. -/
theorem claim_C2_effective_bounds (w h d rx ry rz : ℚ) :
    getRotatedDimensions w h d rx ry rz = specEffectiveBounds w h d rx ry rz ∧
    getRotatedDimensions w h d 0 0 90 = (h, w, d) ∧
    getRotatedDimensions w h d 90 0 0 = (w, d, h) ∧
    getRotatedDimensions w h d 0 0 0 = (w, h, d) := by
  exact ⟨getRotatedDimensions_eq_spec w h d rx ry rz, getRotated_z90 w h d,
    getRotated_x90 w h d, getRotated_id w h d⟩

lemma ms_swap12 {α : Type} (a b c : α) : ({a, b, c} : Multiset α) = {b, a, c} := by
  rw [show ({a, b, c} : Multiset α) = a ::ₘ b ::ₘ {c} from rfl,
    show ({b, a, c} : Multiset α) = b ::ₘ a ::ₘ {c} from rfl, Multiset.cons_swap]

lemma ms_swap23 {α : Type} (a b c : α) : ({a, b, c} : Multiset α) = {a, c, b} := by
  rw [show ({a, b, c} : Multiset α) = a ::ₘ b ::ₘ c ::ₘ 0 from rfl,
    show ({a, c, b} : Multiset α) = a ::ₘ c ::ₘ b ::ₘ 0 from rfl, Multiset.cons_swap b c]

lemma ms_swap13 {α : Type} (a b c : α) : ({a, b, c} : Multiset α) = {c, b, a} := by
  rw [ms_swap12, ms_swap23, ms_swap12]

lemma ms_rotl {α : Type} (a b c : α) : ({a, b, c} : Multiset α) = {b, c, a} := by
  rw [ms_swap12, ms_swap23]

lemma ms_rotr {α : Type} (a b c : α) : ({a, b, c} : Multiset α) = {c, a, b} := by
  rw [ms_swap23, ms_swap12]

/-- C9: the triple returned by the rotation transform is a permutation of the
input dimensions (as a multiset), so the effective volume is always the input
volume, regardless of the angles. -/
theorem claim_C9_permutation (w h d rx ry rz : ℚ) :
    ({(getRotatedDimensions w h d rx ry rz).1,
      (getRotatedDimensions w h d rx ry rz).2.1,
      (getRotatedDimensions w h d rx ry rz).2.2} : Multiset ℚ) = {w, h, d} ∧
    (getRotatedDimensions w h d rx ry rz).1 *
      (getRotatedDimensions w h d rx ry rz).2.1 *
      (getRotatedDimensions w h d rx ry rz).2.2 = w * h * d := by
  simp only [getRotatedDimensions]
  split_ifs <;> refine ⟨?_, by ring⟩ <;>
    first
      | rfl
      | exact ms_swap12 _ _ _
      | exact ms_swap23 _ _ _
      | exact ms_swap13 _ _ _
      | exact ms_rotl _ _ _
      | exact ms_rotr _ _ _

/-! ### `utils/geometry.js` -/

/-- An axis-aligned box size. -/
structure Dims where
  width : ℚ
  height : ℚ
  depth : ℚ
deriving DecidableEq

/-- A point in container-local coordinates. -/
structure Vec3 where
  x : ℚ
  y : ℚ
  z : ℚ
deriving DecidableEq

/-- `calculateVolume` from `utils/geometry.js`. -/
def calculateVolume (width height depth : ℚ) : ℚ := width * height * depth

/-- `checkFit` from `utils/geometry.js`. -/
def checkFit (item : Dims) (container : Dims) (position : Vec3) : Bool :=
  decide (0 ≤ position.x) && decide (position.x + item.width ≤ container.width) &&
  decide (0 ≤ position.y) && decide (position.y + item.height ≤ container.height) &&
  decide (0 ≤ position.z) && decide (position.z + item.depth ≤ container.depth)

/-- `calculateEfficiency` from `utils/geometry.js`: the division is guarded by
an explicit zero test on the container volume. -/
def calculateEfficiency (packedVolume containerVolume : ℚ) : ℚ :=
  if containerVolume = 0 then 0 else packedVolume / containerVolume * 100

/-- C10: `calculateEfficiency` is total: it returns 0 when the container volume
is 0 (the division is guarded), and `(packedVolume / containerVolume) * 100`
otherwise. -/
theorem claim_C10_efficiency_total (packedVolume containerVolume : ℚ) :
    (containerVolume = 0 → calculateEfficiency packedVolume containerVolume = 0) ∧
    (containerVolume ≠ 0 →
      calculateEfficiency packedVolume containerVolume =
        packedVolume / containerVolume * 100) := by
  constructor <;> intro h <;> simp [calculateEfficiency, h]

/-- Witness for C10 at the concrete volumes 5 and 0, resp. 5 and 2. -/
theorem claim_C10_witness :
    calculateEfficiency 5 0 = 0 ∧ calculateEfficiency 5 2 = 5 / 2 * 100 :=
  ⟨(claim_C10_efficiency_total 5 0).1 rfl,
   (claim_C10_efficiency_total 5 2).2 (by norm_num)⟩

/-! ### The packing-result document, as the visualizer reads it

A JSON field that may be absent is an `Option`; a numeric entry that fails
`parseFloat` (`NaN`) is `none`.  Absent-or-empty strings are `none`. -/

/-- A three-entry JSON array of possibly unparsable numbers. -/
structure Raw3 where
  fst : Option ℚ
  snd : Option ℚ
  thd : Option ℚ
deriving DecidableEq

/-- The `container` object of `visualization_data`. -/
structure RawContainer where
  width : Option ℚ
  height : Option ℚ
  depth : Option ℚ
deriving DecidableEq

/-- One entry of the `items` array. -/
structure RawItem where
  dimensions : Option Raw3
  position : Option Raw3
  rotation : Option Raw3
  color : Option String
  id : Option String
  name : Option String
  original_name : Option String
deriving DecidableEq

/-- One entry of the `unpacked_items` array. -/
structure RawUnpackedItem where
  dimensions : Option Raw3
  color : Option String
  id : Option String
  name : Option String
  reason : Option String
deriving DecidableEq

/-- The packing-result document consumed by the visualization effect. -/
structure PackingDoc where
  container : Option RawContainer
  items : List RawItem
  unpacked_items : List RawUnpackedItem
deriving DecidableEq

/-- `parseFloat(d) || 0.5` on a dimension entry: an unparsable or zero entry
falls back to 0.5. -/
def parseDim (e : Option ℚ) : ℚ :=
  match e with
  | none => 1/2
  | some v => if v = 0 then 1/2 else v

/-- `parseFloat(p) || 0` on a position or rotation entry. -/
def parseCoord (e : Option ℚ) : ℚ := e.getD 0

/-- `parseFloat(c.width) || fallback` on a container dimension. -/
def parseContainerDim (e : Option ℚ) (fallback : ℚ) : ℚ :=
  match e with
  | none => fallback
  | some v => if v = 0 then fallback else v

/-- `Math.max(lo, Math.min(x, hi))`. -/
def clamp (lo x hi : ℚ) : ℚ := max lo (min x hi)

/-- The mesh created for one packed item, with its `userData` metadata. -/
structure PackedMesh where
  id : String
  name : String
  dims : Dims
  rotatedDims : Dims
  color : String
  pos : Vec3
  center : Vec3
  rot : Vec3
deriving DecidableEq

/-- The mesh created for one unpacked item, with its `userData` metadata. -/
structure UnpackedMesh where
  id : String
  name : String
  dims : Dims
  color : String
  pos : Vec3
  center : Vec3
  reason : String
deriving DecidableEq

/-- One iteration of the packed-item loop of the visualization effect
(`BinVisualizer`): an item missing `dimensions` or `position` is skipped
(`none`); otherwise dimensions are parsed and floored to 0.01, the position is
clamped per axis into `[0.001, container - size - 0.001]`, and the mesh center
is the clamped position plus half the rotated dimensions. -/
def buildPackedMesh (cw ch cd : ℚ) (index : ℕ) (item : RawItem) : Option PackedMesh :=
  match item.dimensions, item.position with
  | some dims, some posArr =>
    let width := max (parseDim dims.fst) (1/100)
    let height := max (parseDim dims.snd) (1/100)
    let depth := max (parseDim dims.thd) (1/100)
    let rot := item.rotation.getD ⟨some 0, some 0, some 0⟩
    let rotX := parseCoord rot.fst
    let rotY := parseCoord rot.snd
    let rotZ := parseCoord rot.thd
    let color := item.color.getD "#10b981"
    let id := item.id.getD ("item_" ++ toString index)
    let name := (item.original_name.orElse fun _ => item.name).getD id
    let posX := clamp (1/1000) (parseCoord posArr.fst) (cw - width - 1/1000)
    let posY := clamp (1/1000) (parseCoord posArr.snd) (ch - height - 1/1000)
    let posZ := clamp (1/1000) (parseCoord posArr.thd) (cd - depth - 1/1000)
    let rd := getRotatedDimensions width height depth rotX rotY rotZ
    some
      { id := id
        name := name
        dims := ⟨width, height, depth⟩
        rotatedDims := ⟨rd.1, rd.2.1, rd.2.2⟩
        color := color
        pos := ⟨posX, posY, posZ⟩
        center := ⟨posX + rd.1 / 2, posY + rd.2.1 / 2, posZ + rd.2.2 / 2⟩
        rot := ⟨rotX, rotY, rotZ⟩ }
  | _, _ => none

/-- One iteration of the unpacked-item loop: grid cell size 8, three items per
row, row-major by index, corner clamped into the holding area, which sits at
`x ∈ [cw, cw + 30]` with depth `max cd 15`. -/
def buildUnpackedMesh (cw cd : ℚ) (index : ℕ) (item : RawUnpackedItem) :
    Option UnpackedMesh :=
  match item.dimensions with
  | some dims =>
    let width := max (parseDim dims.fst) (1/100)
    let height := max (parseDim dims.snd) (1/100)
    let depth := max (parseDim dims.thd) (1/100)
    let color := item.color.getD "#ef4444"
    let id := item.id.getD ("unpacked_" ++ toString index)
    let name := item.name.getD id
    let reason := item.reason.getD "No space available"
    let areaX := cw + 15
    let areaW : ℚ := 30
    let areaD := max cd 15
    let row : ℕ := index / 3
    let col : ℕ := index % 3
    let startX := areaX - areaW / 2 + 8 / 2
    let startZ := areaD / 2 - 8 / 2
    let cornerX := startX + (col : ℚ) * 8
    let cornerZ := startZ - (row : ℚ) * 8
    let clampedX :=
      clamp (areaX - areaW / 2 + 1/1000) cornerX (areaX + areaW / 2 - width - 1/1000)
    let clampedZ := clamp (1/1000) cornerZ (areaD - depth - 1/1000)
    let clampedY := max (1/1000) 0
    some
      { id := id
        name := name
        dims := ⟨width, height, depth⟩
        color := color
        pos := ⟨clampedX, clampedY, clampedZ⟩
        center := ⟨clampedX + width / 2, clampedY + height / 2, clampedZ + depth / 2⟩
        reason := reason }
  | none => none

/-- The renderable objects tracked for one scene generation, plus a counter of
meshes disposed so far. -/
structure SceneState where
  itemMeshes : List PackedMesh
  unpackedMeshes : List UnpackedMesh
  containerBuilt : Bool
  unpackedAreaBuilt : Bool
  disposedCount : ℕ
deriving DecidableEq

/-- `cleanupScene`: removes every mesh of the previous generation from the
scene, disposes it, and empties the tracking arrays. -/
def cleanupScene (s : SceneState) : SceneState :=
  { itemMeshes := []
    unpackedMeshes := []
    containerBuilt := false
    unpackedAreaBuilt := false
    disposedCount := s.disposedCount + s.itemMeshes.length + s.unpackedMeshes.length }

/-- Container dimensions as the effect reads them: absent document container
aborts the rebuild; absent or zero fields fall back to 17, 8 and 10. -/
def containerDims (doc : PackingDoc) : Option (ℚ × ℚ × ℚ) :=
  doc.container.map fun c =>
    (parseContainerDim c.width 17, parseContainerDim c.height 8, parseContainerDim c.depth 10)

/-- The packed-item `forEach` loop: `i` is the running array index. -/
def buildItemsFrom (cw ch cd : ℚ) (i : ℕ) : List RawItem → List PackedMesh
  | [] => []
  | item :: rest =>
    match buildPackedMesh cw ch cd i item with
    | some m => m :: buildItemsFrom cw ch cd (i + 1) rest
    | none => buildItemsFrom cw ch cd (i + 1) rest

/-- The packed-item meshes created by one rebuild. -/
def buildItems (cw ch cd : ℚ) (items : List RawItem) : List PackedMesh :=
  buildItemsFrom cw ch cd 0 items

/-- The unpacked-item `forEach` loop: `i` is the running array index. -/
def buildUnpackedFrom (cw cd : ℚ) (i : ℕ) : List RawUnpackedItem → List UnpackedMesh
  | [] => []
  | item :: rest =>
    match buildUnpackedMesh cw cd i item with
    | some m => m :: buildUnpackedFrom cw cd (i + 1) rest
    | none => buildUnpackedFrom cw cd (i + 1) rest

/-- The unpacked-item meshes created by one rebuild. -/
def buildUnpacked (cw cd : ℚ) (us : List RawUnpackedItem) : List UnpackedMesh :=
  buildUnpackedFrom cw cd 0 us

/-- The visualization-creation effect: clean up the previous generation, then
build the container group, the packed-item meshes and, when any unpacked item
exists, the holding area, all from the document alone. -/
def rebuild (doc : PackingDoc) (s : SceneState) : SceneState :=
  let s0 := cleanupScene s
  match containerDims doc with
  | none => s0
  | some (cw, ch, cd) =>
      { s0 with
        containerBuilt := true
        itemMeshes := buildItems cw ch cd doc.items
        unpackedMeshes := buildUnpacked cw cd doc.unpacked_items
        unpackedAreaBuilt := !doc.unpacked_items.isEmpty }

/-- The scene before the first rebuild. -/
def initialScene : SceneState := ⟨[], [], false, false, 0⟩

/-- Number of live renderable aggregates of a scene state. -/
def resourceCount (s : SceneState) : ℕ :=
  s.itemMeshes.length + s.unpackedMeshes.length +
    (if s.containerBuilt then 1 else 0) + (if s.unpackedAreaBuilt then 1 else 0)

lemma le_clamp (lo x hi : ℚ) : lo ≤ clamp lo x hi := le_max_left _ _

lemma clamp_le (lo x hi : ℚ) (h : lo ≤ hi) : clamp lo x hi ≤ hi :=
  max_le h (min_le_right _ _)

lemma parseContainerDim_pos {w : ℚ} (fallback : ℚ) (hw : w ≠ 0) :
    parseContainerDim (some w) fallback = w := by
  simp [parseContainerDim, hw]

lemma rebuild_meshes {doc : PackingDoc} (s : SceneState) {cw ch cd : ℚ}
    (h : containerDims doc = some (cw, ch, cd)) :
    (rebuild doc s).itemMeshes = buildItems cw ch cd doc.items ∧
    (rebuild doc s).unpackedMeshes = buildUnpacked cw cd doc.unpacked_items := by
  simp [rebuild, h]

lemma mem_buildItemsFrom {cw ch cd : ℚ} {i : ℕ} {items : List RawItem} {m : PackedMesh}
    (hm : m ∈ buildItemsFrom cw ch cd i items) :
    ∃ j item, item ∈ items ∧ buildPackedMesh cw ch cd j item = some m := by
  induction items generalizing i with
  | nil => simp [buildItemsFrom] at hm
  | cons it rest ih =>
    rw [buildItemsFrom] at hm
    rcases hb : buildPackedMesh cw ch cd i it with _ | mm <;> rw [hb] at hm
    · obtain ⟨j, item, hmem, hsome⟩ := ih hm
      exact ⟨j, item, List.mem_cons_of_mem _ hmem, hsome⟩
    · rcases List.mem_cons.mp hm with rfl | hrest
      · exact ⟨i, it, List.mem_cons_self _ _, hb⟩
      · obtain ⟨j, item, hmem, hsome⟩ := ih hrest
        exact ⟨j, item, List.mem_cons_of_mem _ hmem, hsome⟩

lemma buildPackedMesh_clamp {cw ch cd : ℚ} {i : ℕ} {item : RawItem} {m : PackedMesh}
    (hm : buildPackedMesh cw ch cd i item = some m) :
    (1/1000 ≤ m.pos.x ∧
      (m.dims.width ≤ cw - 1/500 → m.pos.x + m.dims.width ≤ cw - 1/1000)) ∧
    (1/1000 ≤ m.pos.y ∧
      (m.dims.height ≤ ch - 1/500 → m.pos.y + m.dims.height ≤ ch - 1/1000)) ∧
    (1/1000 ≤ m.pos.z ∧
      (m.dims.depth ≤ cd - 1/500 → m.pos.z + m.dims.depth ≤ cd - 1/1000)) := by
  rcases hdim : item.dimensions with _ | dims <;>
    rcases hpos : item.position with _ | posArr <;>
      simp only [buildPackedMesh, hdim, hpos] at hm <;> cases hm
  dsimp only
  refine ⟨⟨le_clamp _ _ _, fun hw => ?_⟩, ⟨le_clamp _ _ _, fun hh => ?_⟩,
    ⟨le_clamp _ _ _, fun hd => ?_⟩⟩
  · have := clamp_le (1/1000) (parseCoord posArr.fst)
      (cw - max (parseDim dims.fst) (1/100) - 1/1000) (by linarith)
    linarith
  · have := clamp_le (1/1000) (parseCoord posArr.snd)
      (ch - max (parseDim dims.snd) (1/100) - 1/1000) (by linarith)
    linarith
  · have := clamp_le (1/1000) (parseCoord posArr.thd)
      (cd - max (parseDim dims.thd) (1/100) - 1/1000) (by linarith)
    linarith

/-- The container `10×5×5` used in several spec scenarios. -/
def container10x5x5 : RawContainer := ⟨some 10, some 5, some 5⟩

/-- Item of dimensions (5,1,1) stored at (0,3,0), rotated 90° about Z, so its
effective bounds are (1,5,1). -/
def itemC1 : RawItem :=
  { dimensions := some ⟨some 5, some 1, some 1⟩
    position := some ⟨some 0, some 3, some 0⟩
    rotation := some ⟨some 0, some 0, some 90⟩
    color := none, id := none, name := none, original_name := none }

/-- Document for the C1 counterexample. -/
def docC1 : PackingDoc := ⟨some container10x5x5, [itemC1], []⟩

/-- The mesh rebuilt for `itemC1`. -/
def meshC1c : PackedMesh :=
  { id := "item_0", name := "item_0"
    dims := ⟨5, 1, 1⟩, rotatedDims := ⟨1, 5, 1⟩
    color := "#10b981"
    pos := ⟨1/1000, 3, 1/1000⟩
    center := ⟨1/1000 + 1/2, 3 + 5/2, 1/1000 + 1/2⟩
    rot := ⟨0, 0, 90⟩ }

lemma containerDims_10x5x5 (items : List RawItem) (us : List RawUnpackedItem) :
    containerDims ⟨some container10x5x5, items, us⟩ = some (10, 5, 5) := by
  norm_num [containerDims, container10x5x5, parseContainerDim]

lemma rebuild_single (c : RawContainer) (item : RawItem) (m : PackedMesh)
    (cw ch cd : ℚ) (hc : containerDims ⟨some c, [item], []⟩ = some (cw, ch, cd))
    (hb : buildPackedMesh cw ch cd 0 item = some m) :
    (rebuild ⟨some c, [item], []⟩ initialScene).itemMeshes = [m] := by
  obtain ⟨hi, -⟩ := rebuild_meshes initialScene hc
  rw [hi]
  show buildItemsFrom cw ch cd 0 [item] = [m]
  simp [buildItemsFrom, hb]

lemma buildPackedMesh_itemC1 : buildPackedMesh 10 5 5 0 itemC1 = some meshC1c := by
  norm_num [buildPackedMesh, itemC1, meshC1c, parseDim, parseCoord, clamp,
    getRotated_z90, max_def, min_def]
  rfl

lemma rebuild_docC1_items : (rebuild docC1 initialScene).itemMeshes = [meshC1c] :=
  rebuild_single container10x5x5 itemC1 meshC1c 10 5 5 (containerDims_10x5x5 _ _)
    buildPackedMesh_itemC1

/-- C1 counterexample: a valid container 10×5×5 with a placed item of stored
dimensions (5,1,1), position (0,3,0) and rotation (0,0,90): the clamp uses the
unrotated dimensions, so the clamped position plus the effective (rotated)
bounds reaches 3 + 5 = 8 > 5 on the y axis, outside the container. -/
theorem claim_C1_counterexample :
    ((rebuild docC1 initialScene).itemMeshes.map fun m => m.pos.y + m.rotatedDims.height) =
      [8] ∧ ¬ ((8 : ℚ) ≤ 5) := by
  rw [rebuild_docC1_items]
  norm_num [meshC1c]

/-- C1 (amended): rebuild clamps the stored position using the item's
pre-rotation floored dimensions, not the rotated effective bounds: for every
valid container spec and every placed item whose floored dimensions are at
most the container dimensions minus 0.002 componentwise, the clamped position
is strictly positive and position + storedDimensions ≤ containerBounds
componentwise (so the unrotated box lies in [0,w]×[0,h]×[0,d]); an item whose
rotated bounds differ may still protrude (see the counterexample). -/
theorem claim_C1_clamp_amended (doc : PackingDoc) (s : SceneState) (c : RawContainer)
    (w h d : ℚ) (hc : doc.container = some c) (hw : c.width = some w)
    (hh : c.height = some h) (hd : c.depth = some d)
    (hw0 : 0 < w) (hh0 : 0 < h) (hd0 : 0 < d)
    (m : PackedMesh) (hm : m ∈ (rebuild doc s).itemMeshes) :
    (0 < m.pos.x ∧ (m.dims.width ≤ w - 1/500 → m.pos.x + m.dims.width ≤ w)) ∧
    (0 < m.pos.y ∧ (m.dims.height ≤ h - 1/500 → m.pos.y + m.dims.height ≤ h)) ∧
    (0 < m.pos.z ∧ (m.dims.depth ≤ d - 1/500 → m.pos.z + m.dims.depth ≤ d)) := by
  have hcd : containerDims doc = some (w, h, d) := by
    unfold containerDims
    rw [hc, Option.map_some', hw, hh, hd, parseContainerDim_pos _ (ne_of_gt hw0),
      parseContainerDim_pos _ (ne_of_gt hh0), parseContainerDim_pos _ (ne_of_gt hd0)]
  obtain ⟨hitems, -⟩ := rebuild_meshes s hcd
  rw [hitems] at hm
  unfold buildItems at hm
  obtain ⟨j, item, -, hsome⟩ := mem_buildItemsFrom hm
  obtain ⟨⟨h1, h2⟩, ⟨h3, h4⟩, ⟨h5, h6⟩⟩ := buildPackedMesh_clamp hsome
  exact ⟨⟨by linarith, fun hcond => by have := h2 hcond; linarith⟩,
    ⟨by linarith, fun hcond => by have := h4 hcond; linarith⟩,
    ⟨by linarith, fun hcond => by have := h6 hcond; linarith⟩⟩

/-- In-bounds 2×2×2 item stored at (9,9,9) (overflowing, so it gets clamped). -/
def itemC1w : RawItem :=
  { dimensions := some ⟨some 2, some 2, some 2⟩
    position := some ⟨some 9, some 9, some 9⟩
    rotation := none, color := none, id := none, name := none, original_name := none }

/-- Document for the C1 witness. -/
def docC1w : PackingDoc := ⟨some container10x5x5, [itemC1w], []⟩

/-- The mesh rebuilt for `itemC1w`. -/
def meshC1w : PackedMesh :=
  { id := "item_0", name := "item_0"
    dims := ⟨2, 2, 2⟩, rotatedDims := ⟨2, 2, 2⟩
    color := "#10b981"
    pos := ⟨7999/1000, 2999/1000, 2999/1000⟩
    center := ⟨8999/1000, 3999/1000, 3999/1000⟩
    rot := ⟨0, 0, 0⟩ }

lemma buildPackedMesh_itemC1w : buildPackedMesh 10 5 5 0 itemC1w = some meshC1w := by
  norm_num [buildPackedMesh, itemC1w, meshC1w, parseDim, parseCoord, clamp,
    getRotated_id, max_def, min_def]
  rfl

lemma rebuild_docC1w_items : (rebuild docC1w initialScene).itemMeshes = [meshC1w] :=
  rebuild_single container10x5x5 itemC1w meshC1w 10 5 5 (containerDims_10x5x5 _ _)
    buildPackedMesh_itemC1w

/-- Witness for the amended C1 at the concrete container 10×5×5 and item
`itemC1w`. -/
theorem claim_C1_witness :
    docC1w.container = some container10x5x5 ∧
    container10x5x5.width = some 10 ∧ container10x5x5.height = some 5 ∧
    container10x5x5.depth = some 5 ∧ (0 : ℚ) < 10 ∧ (0 : ℚ) < 5 ∧
    meshC1w ∈ (rebuild docC1w initialScene).itemMeshes ∧
    ((0 < meshC1w.pos.x ∧
        (meshC1w.dims.width ≤ 10 - 1/500 → meshC1w.pos.x + meshC1w.dims.width ≤ 10)) ∧
     (0 < meshC1w.pos.y ∧
        (meshC1w.dims.height ≤ 5 - 1/500 → meshC1w.pos.y + meshC1w.dims.height ≤ 5)) ∧
     (0 < meshC1w.pos.z ∧
        (meshC1w.dims.depth ≤ 5 - 1/500 → meshC1w.pos.z + meshC1w.dims.depth ≤ 5))) :=
  ⟨rfl, rfl, rfl, rfl, by norm_num, by norm_num,
   by rw [rebuild_docC1w_items]; exact List.mem_singleton_self _,
   claim_C1_clamp_amended docC1w initialScene container10x5x5 10 5 5 rfl rfl rfl rfl
     (by norm_num) (by norm_num) (by norm_num) meshC1w
     (by rw [rebuild_docC1w_items]; exact List.mem_singleton_self _)⟩

/-- 2×2×2 item stored at the origin with rotation (0,0,90). -/
def itemC8 : RawItem :=
  { dimensions := some ⟨some 2, some 2, some 2⟩
    position := some ⟨some 0, some 0, some 0⟩
    rotation := some ⟨some 0, some 0, some 90⟩
    color := none, id := none, name := none, original_name := none }

/-- Document for the C8 scenario. -/
def docC8 : PackingDoc := ⟨some container10x5x5, [itemC8], []⟩

/-- The mesh rebuilt for `itemC8`. -/
def meshC8 : PackedMesh :=
  { id := "item_0", name := "item_0"
    dims := ⟨2, 2, 2⟩, rotatedDims := ⟨2, 2, 2⟩
    color := "#10b981"
    pos := ⟨1/1000, 1/1000, 1/1000⟩
    center := ⟨1001/1000, 1001/1000, 1001/1000⟩
    rot := ⟨0, 0, 90⟩ }

lemma buildPackedMesh_itemC8 : buildPackedMesh 10 5 5 0 itemC8 = some meshC8 := by
  norm_num [buildPackedMesh, itemC8, meshC8, parseDim, parseCoord, clamp,
    getRotated_z90, max_def, min_def]
  rfl

lemma rebuild_docC8_items : (rebuild docC8 initialScene).itemMeshes = [meshC8] :=
  rebuild_single container10x5x5 itemC8 meshC8 10 5 5 (containerDims_10x5x5 _ _)
    buildPackedMesh_itemC8

/-- C8 counterexample: the render center of the scenario item is
(1.001, 1.001, 1.001), not exactly (1,1,1): the clamp's lower bound 0.001
moves the stored zero position before the center is computed. -/
theorem claim_C8_counterexample :
    ((rebuild docC8 initialScene).itemMeshes.map PackedMesh.center) =
      [⟨1001/1000, 1001/1000, 1001/1000⟩] ∧ (1001/1000 : ℚ) ≠ 1 := by
  rw [rebuild_docC8_items]
  norm_num [meshC8]

/-- C8 (amended): for container 10×5×5 and a single 2×2×2 item stored at
(0,0,0) with rotation (0,0,90), rebuild yields effective bounds (2,2,2) and a
render center of exactly (1.001, 1.001, 1.001). -/
theorem claim_C8_amended :
    ((rebuild docC8 initialScene).itemMeshes.map fun m => (m.rotatedDims, m.center)) =
      [(⟨2, 2, 2⟩, ⟨1001/1000, 1001/1000, 1001/1000⟩)] := by
  rw [rebuild_docC8_items]
  norm_num [meshC8]

lemma length_buildItemsFrom (cw ch cd : ℚ) (i : ℕ) (items : List RawItem) :
    (buildItemsFrom cw ch cd i items).length =
      items.countP fun it => it.dimensions.isSome && it.position.isSome := by
  induction items generalizing i with
  | nil => rfl
  | cons it rest ih =>
    rcases hdim : it.dimensions with _ | dims <;>
      rcases hpos : it.position with _ | posArr <;>
        simp [buildItemsFrom, buildPackedMesh, hdim, hpos, List.countP_cons, ih]

/-- C7: rebuild never fails on malformed per-item data: an item entry missing
its dimensions or position is skipped (no mesh), the remaining well-formed
entries still produce their meshes, a missing rotation defaults to (0,0,0),
missing color and id take the documented defaults, and every parsed dimension
is floored to the minimum positive size 0.01. -/
theorem claim_C7_malformed_items :
    (∀ (cw ch cd : ℚ) (i : ℕ) (item : RawItem),
      item.dimensions = none ∨ item.position = none →
      buildPackedMesh cw ch cd i item = none) ∧
    (∀ (cw ch cd : ℚ) (items : List RawItem),
      (buildItems cw ch cd items).length =
        items.countP fun it => it.dimensions.isSome && it.position.isSome) ∧
    (∀ (cw ch cd : ℚ) (i : ℕ) (item : RawItem) (m : PackedMesh),
      buildPackedMesh cw ch cd i item = some m →
      (item.rotation = none → m.rot = ⟨0, 0, 0⟩) ∧
      (item.color = none → m.color = "#10b981") ∧
      (item.id = none → m.id = "item_" ++ toString i) ∧
      1/100 ≤ m.dims.width ∧ 1/100 ≤ m.dims.height ∧ 1/100 ≤ m.dims.depth) := by
  refine ⟨?_, ?_, ?_⟩
  · intro cw ch cd i item hbad
    rcases hdim : item.dimensions with _ | dims <;>
      rcases hpos : item.position with _ | posArr <;>
        simp only [buildPackedMesh, hdim, hpos]
    rcases hbad with hbad | hbad
    · rw [hdim] at hbad; cases hbad
    · rw [hpos] at hbad; cases hbad
  · intro cw ch cd items
    exact length_buildItemsFrom cw ch cd 0 items
  · intro cw ch cd i item m hm
    rcases hdim : item.dimensions with _ | dims <;>
      rcases hpos : item.position with _ | posArr <;>
        simp only [buildPackedMesh, hdim, hpos] at hm <;> cases hm
    dsimp only
    refine ⟨fun hrot => ?_, fun hcol => ?_, fun hid => ?_,
      le_max_right _ _, le_max_right _ _, le_max_right _ _⟩
    · rw [hrot]; rfl
    · rw [hcol]; rfl
    · rw [hid]; rfl

/-- Item with no `dimensions` field: it is skipped. -/
def badItemC7 : RawItem :=
  { dimensions := none
    position := some ⟨some 1, some 1, some 1⟩
    rotation := none, color := none, id := none, name := none, original_name := none }

/-- Item whose second dimension is unparsable and third is 0, with rotation,
color and id absent: all defaults fire. -/
def goodItemC7 : RawItem :=
  { dimensions := some ⟨some 3, none, some 0⟩
    position := some ⟨some 1, some 1, some 1⟩
    rotation := none, color := none, id := none, name := none, original_name := none }

/-- The mesh rebuilt for `goodItemC7` in a 10×5×5 container at index 0. -/
def meshC7 : PackedMesh :=
  { id := "item_0", name := "item_0"
    dims := ⟨3, 1/2, 1/2⟩, rotatedDims := ⟨3, 1/2, 1/2⟩
    color := "#10b981"
    pos := ⟨1, 1, 1⟩
    center := ⟨1 + 3/2, 1 + 1/4, 1 + 1/4⟩
    rot := ⟨0, 0, 0⟩ }

lemma buildPackedMesh_goodItemC7 : buildPackedMesh 10 5 5 0 goodItemC7 = some meshC7 := by
  norm_num [buildPackedMesh, goodItemC7, meshC7, parseDim, parseCoord, clamp,
    getRotated_id, max_def, min_def]
  rfl

/-- Witness for C7 at concrete malformed and well-formed items. -/
theorem claim_C7_witness :
    buildPackedMesh 10 5 5 0 badItemC7 = none ∧
    (buildItems 10 5 5 [badItemC7, goodItemC7]).length = 1 ∧
    ((goodItemC7.rotation = none → meshC7.rot = ⟨0, 0, 0⟩) ∧
     (goodItemC7.color = none → meshC7.color = "#10b981") ∧
     (goodItemC7.id = none → meshC7.id = "item_" ++ toString 0) ∧
     1/100 ≤ meshC7.dims.width ∧ 1/100 ≤ meshC7.dims.height ∧
     1/100 ≤ meshC7.dims.depth) :=
  ⟨claim_C7_malformed_items.1 10 5 5 0 badItemC7 (Or.inl rfl),
   by rw [claim_C7_malformed_items.2.1 10 5 5 [badItemC7, goodItemC7]]; rfl,
   claim_C7_malformed_items.2.2 10 5 5 0 goodItemC7 meshC7 buildPackedMesh_goodItemC7⟩

lemma clamp_le_max (lo x hi : ℚ) : clamp lo x hi ≤ max lo hi :=
  max_le_max le_rfl (min_le_right x hi)

/-- 2×2×2 unpacked item with all optional fields absent. -/
def uItemC5 : RawUnpackedItem :=
  { dimensions := some ⟨some 2, some 2, some 2⟩, color := none, id := none,
    name := none, reason := none }

/-- Seven identical unpacked items (spec scenario for the 3,3,1 rows). -/
def sevenItemsC5 : List RawUnpackedItem :=
  [uItemC5, uItemC5, uItemC5, uItemC5, uItemC5, uItemC5, uItemC5]

/-- C5: the layout engine places unpacked item `i` row-major on a grid of
square cells of size 8 with row `i / 3` and column `i % 3` (corner
`(cw + 4 + col·8, 0, areaD/2 - 4 - row·8)` with `areaD = max cd 15`), and
clamps the computed corner into the holding-area bounds
`x ∈ (cw, cw+30)`, `z ∈ (0, areaD]`, `y > 0`; for 7 items the rows are
3, 3 and 1 (three x-columns 21, 29, 37 at `cw = 17`, rows advancing in −z)
with every position inside those bounds. -/
theorem claim_C5_unpacked_layout :
    (∀ (cw cd : ℚ) (i : ℕ) (item : RawUnpackedItem) (m : UnpackedMesh),
      buildUnpackedMesh cw cd i item = some m →
      (m.pos.x = clamp (cw + 1/1000) (cw + 4 + ((i % 3 : ℕ) : ℚ) * 8)
          (cw + 30 - m.dims.width - 1/1000) ∧
       m.pos.z = clamp (1/1000) (max cd 15 / 2 - 4 - ((i / 3 : ℕ) : ℚ) * 8)
          (max cd 15 - m.dims.depth - 1/1000) ∧
       m.pos.y = 1/1000) ∧
      (cw < m.pos.x ∧ m.pos.x < cw + 30 ∧ 0 < m.pos.z ∧ m.pos.z ≤ max cd 15 ∧
        0 < m.pos.y)) ∧
    ((buildUnpacked 17 10 sevenItemsC5).map UnpackedMesh.pos =
      [⟨21, 1/1000, 7/2⟩, ⟨29, 1/1000, 7/2⟩, ⟨37, 1/1000, 7/2⟩,
       ⟨21, 1/1000, 1/1000⟩, ⟨29, 1/1000, 1/1000⟩, ⟨37, 1/1000, 1/1000⟩,
       ⟨21, 1/1000, 1/1000⟩]) := by
  constructor
  · intro cw cd i item m hm
    rcases hdim : item.dimensions with _ | dims <;>
      simp only [buildUnpackedMesh, hdim] at hm <;> cases hm
    dsimp only
    refine ⟨⟨?_, ?_, ?_⟩, ?_, ?_, ?_, ?_, ?_⟩
    · congr 1 <;> ring
    · congr 1 <;> ring
    · exact max_eq_left (by norm_num)
    · exact lt_of_lt_of_le (by linarith) (le_clamp _ _ _)
    · exact lt_of_le_of_lt (clamp_le_max _ _ _)
        (max_lt (by linarith) (by linarith [le_max_right (parseDim dims.fst) ((1:ℚ)/100)]))
    · exact lt_of_lt_of_le (by norm_num) (le_clamp _ _ _)
    · exact le_trans (clamp_le_max _ _ _)
        (max_le (le_trans (by norm_num) (le_max_right cd 15))
          (by linarith [le_max_right (parseDim dims.thd) ((1:ℚ)/100)]))
    · exact lt_of_lt_of_le (by norm_num) (le_max_left _ _)
  · norm_num [buildUnpacked, buildUnpackedFrom, buildUnpackedMesh, sevenItemsC5,
      uItemC5, parseDim, parseCoord, clamp, max_def, min_def]

/-- The mesh rebuilt for `uItemC5` at index 0 next to a 17-wide, 10-deep
container. -/
def meshC5u : UnpackedMesh :=
  { id := "unpacked_0", name := "unpacked_0", dims := ⟨2, 2, 2⟩, color := "#ef4444"
    pos := ⟨21, 1/1000, 7/2⟩, center := ⟨22, 1001/1000, 9/2⟩
    reason := "No space available" }

lemma buildUnpackedMesh_uItemC5 : buildUnpackedMesh 17 10 0 uItemC5 = some meshC5u := by
  norm_num [buildUnpackedMesh, uItemC5, meshC5u, parseDim, parseCoord, clamp,
    max_def, min_def]
  rfl

/-- Witness for C5's universally quantified part at index 0 and item
`uItemC5`. -/
theorem claim_C5_witness :
    buildUnpackedMesh 17 10 0 uItemC5 = some meshC5u ∧
    ((meshC5u.pos.x = clamp (17 + 1/1000) (17 + 4 + ((0 % 3 : ℕ) : ℚ) * 8)
        (17 + 30 - meshC5u.dims.width - 1/1000) ∧
      meshC5u.pos.z = clamp (1/1000) (max 10 15 / 2 - 4 - ((0 / 3 : ℕ) : ℚ) * 8)
        (max 10 15 - meshC5u.dims.depth - 1/1000) ∧
      meshC5u.pos.y = 1/1000) ∧
     (17 < meshC5u.pos.x ∧ meshC5u.pos.x < 17 + 30 ∧ 0 < meshC5u.pos.z ∧
      meshC5u.pos.z ≤ max 10 15 ∧ 0 < meshC5u.pos.y)) :=
  ⟨buildUnpackedMesh_uItemC5,
   claim_C5_unpacked_layout.1 17 10 0 uItemC5 meshC5u buildUnpackedMesh_uItemC5⟩

/-- C3: rebuild is idempotent: running it twice in a row with the identical
document produces scenes with identical resource counts and identical item
center positions. -/
theorem claim_C3_rebuild_idempotent (doc : PackingDoc) (s : SceneState) :
    resourceCount (rebuild doc (rebuild doc s)) = resourceCount (rebuild doc s) ∧
    (rebuild doc (rebuild doc s)).itemMeshes.map PackedMesh.center =
      (rebuild doc s).itemMeshes.map PackedMesh.center ∧
    (rebuild doc (rebuild doc s)).unpackedMeshes.map UnpackedMesh.center =
      (rebuild doc s).unpackedMeshes.map UnpackedMesh.center := by
  rcases h : containerDims doc with _ | ⟨⟨cw, ch, cd⟩⟩ <;>
    simp [rebuild, cleanupScene, resourceCount, h]

/-! ### Camera view modes -/

/-- The four camera framing presets. -/
inductive ViewMode where
  | Perspective
  | Top
  | Front
  | Side
deriving DecidableEq

/-- Camera placement plus the per-mode interaction flags. -/
structure CameraState where
  pos : Vec3
  target : Vec3
  enableRotate : Bool
  enablePan : Bool
deriving DecidableEq

/-- The camera view-mode effect of `BinVisualizer`: the look-at target is the
container center (shifted right when the holding area is shown); `Top`,
`Front` and `Side` put the camera at coordinate 50 on the corresponding axis
with rotation disabled; `Perspective` re-enables rotation. -/
def frame (doc : PackingDoc) (showUnpackedArea : Bool) (mode : ViewMode) : CameraState :=
  let cw := parseContainerDim (doc.container.bind RawContainer.width) 17
  let ch := parseContainerDim (doc.container.bind RawContainer.height) 8
  let cd := parseContainerDim (doc.container.bind RawContainer.depth) 10
  let hasUnpacked := !doc.unpacked_items.isEmpty
  let cy := ch / 2
  let cz := cd / 2
  let tX := if hasUnpacked && showUnpackedArea then (cw + 30 + 15) / 2 else cw / 2
  match mode with
  | ViewMode.Top => ⟨⟨tX, 50, cz⟩, ⟨tX, cy, cz⟩, false, true⟩
  | ViewMode.Front => ⟨⟨tX, cy, 50⟩, ⟨tX, cy, cz⟩, false, true⟩
  | ViewMode.Side => ⟨⟨50, cy, cz⟩, ⟨tX, cy, cz⟩, false, true⟩
  | ViewMode.Perspective =>
      if hasUnpacked && showUnpackedArea then
        ⟨⟨tX + 15, ch * (18/10), cd * (18/10)⟩, ⟨tX, cy, cz⟩, true, true⟩
      else
        ⟨⟨cw * (8/10), ch * (12/10), cd * (12/10)⟩, ⟨tX, cy, cz⟩, true, true⟩

/-- Document with a cubic container with edge 10 and no items. -/
def docC6a : PackingDoc := ⟨some ⟨some 10, some 10, some 10⟩, [], []⟩

/-- Document with a cubic container with edge 100 and no items. -/
def docC6b : PackingDoc := ⟨some ⟨some 100, some 100, some 100⟩, [], []⟩

/-- C6 counterexample: in `Top` mode the camera height is the constant 50 for
both a 10-cube and a 100-cube container, so it is not a fixed multiple of the
scene's largest relevant dimension (10 resp. 100). -/
theorem claim_C6_counterexample :
    (frame docC6a false ViewMode.Top).pos.y = 50 ∧
    (frame docC6b false ViewMode.Top).pos.y = 50 ∧
    ¬ ∃ k : ℚ, (frame docC6a false ViewMode.Top).pos.y = k * 10 ∧
        (frame docC6b false ViewMode.Top).pos.y = k * 100 := by
  refine ⟨rfl, rfl, ?_⟩
  rintro ⟨k, h1, h2⟩
  have e1 : (frame docC6a false ViewMode.Top).pos.y = 50 := rfl
  have e2 : (frame docC6b false ViewMode.Top).pos.y = 50 := rfl
  rw [e1] at h1
  rw [e2] at h2
  linarith

/-- C6 (amended): for every document and view-mode change, rotation
interaction is enabled exactly in `Perspective`, panning is always retained,
and in `Top`, `Front` and `Side` the camera agrees with the look-at target
(the scene center) on two axes and sits at the fixed coordinate 50 (not a
container-dependent multiple; see the counterexample) on the remaining one. -/
theorem claim_C6_camera_amended (doc : PackingDoc) (sua : Bool) (mode : ViewMode) :
    ((frame doc sua mode).enableRotate = true ↔ mode = ViewMode.Perspective) ∧
    (frame doc sua mode).enablePan = true ∧
    (mode = ViewMode.Top →
      (frame doc sua mode).pos.x = (frame doc sua mode).target.x ∧
      (frame doc sua mode).pos.z = (frame doc sua mode).target.z ∧
      (frame doc sua mode).pos.y = 50) ∧
    (mode = ViewMode.Front →
      (frame doc sua mode).pos.x = (frame doc sua mode).target.x ∧
      (frame doc sua mode).pos.y = (frame doc sua mode).target.y ∧
      (frame doc sua mode).pos.z = 50) ∧
    (mode = ViewMode.Side →
      (frame doc sua mode).pos.y = (frame doc sua mode).target.y ∧
      (frame doc sua mode).pos.z = (frame doc sua mode).target.z ∧
      (frame doc sua mode).pos.x = 50) := by
  cases mode <;>
    simp [frame, apply_ite CameraState.enableRotate, apply_ite CameraState.enablePan]

/-- Witness for the amended C6 in `Top` mode at the 10-cube document. -/
theorem claim_C6_witness :
    ((frame docC6a false ViewMode.Top).enableRotate = true ↔
      ViewMode.Top = ViewMode.Perspective) ∧
    (frame docC6a false ViewMode.Top).enablePan = true ∧
    (ViewMode.Top = ViewMode.Top →
      (frame docC6a false ViewMode.Top).pos.x = (frame docC6a false ViewMode.Top).target.x ∧
      (frame docC6a false ViewMode.Top).pos.z = (frame docC6a false ViewMode.Top).target.z ∧
      (frame docC6a false ViewMode.Top).pos.y = 50) ∧
    (ViewMode.Top = ViewMode.Front →
      (frame docC6a false ViewMode.Top).pos.x = (frame docC6a false ViewMode.Top).target.x ∧
      (frame docC6a false ViewMode.Top).pos.y = (frame docC6a false ViewMode.Top).target.y ∧
      (frame docC6a false ViewMode.Top).pos.z = 50) ∧
    (ViewMode.Top = ViewMode.Side →
      (frame docC6a false ViewMode.Top).pos.y = (frame docC6a false ViewMode.Top).target.y ∧
      (frame docC6a false ViewMode.Top).pos.z = (frame docC6a false ViewMode.Top).target.z ∧
      (frame docC6a false ViewMode.Top).pos.x = 50) :=
  claim_C6_camera_amended docC6a false ViewMode.Top

/-! ### Pointer picking (`handleMouseMove`)

Every item mesh carries a child edge-outline `LineSegments` (`mesh.add(line2)`
in both item loops), and `intersectObjects` recurses into children, so the ray
is tested against each item mesh and its child edge line.  A child has an
empty `userData`, so when it is the nearest hit every hover fallback fires and
the `obj === item` highlight comparison matches no element of `allItems`. -/

/-- The `userData` metadata snapshot that `handleMouseMove` copies into the
hover state. -/
structure ItemMeta where
  name : String
  dims : Dims
  color : String
  pos : Vec3
  isOutOfBounds : Bool
  isUnpacked : Bool
  rot : Vec3
  reason : String
deriving DecidableEq

/-- A live item mesh as the picking handler sees it: its object identity, the
object identity of its child edge-outline `LineSegments`, and its metadata. -/
structure SceneMesh where
  oid : ℕ
  childOid : ℕ
  meta : ItemMeta
deriving DecidableEq

/-- An object the recursive raycast can return: an item mesh itself, or its
child edge line (whose `userData` is empty). -/
inductive SceneObject where
  | mesh (m : SceneMesh)
  | child (parent : SceneMesh)
deriving DecidableEq

/-- The object identity `===` compares. -/
def objectId : SceneObject → ℕ
  | SceneObject.mesh m => m.oid
  | SceneObject.child p => p.childOid

/-- The hover record built from an empty `userData`: every fallback of
`setHoveredItem` fires ('Unknown Item', zero dimensions, '#cccccc', zero
position, cleared flags, empty reason). -/
def fallbackMeta : ItemMeta :=
  ⟨"Unknown Item", ⟨0, 0, 0⟩, "#cccccc", ⟨0, 0, 0⟩, false, false, ⟨0, 0, 0⟩, ""⟩

/-- The hover record `setHoveredItem` builds for a hit object: a mesh carries
the full metadata installed by rebuild; a child edge line has empty
`userData`, so the fallbacks fire. -/
def metaOf : SceneObject → ItemMeta
  | SceneObject.mesh m => m.meta
  | SceneObject.child _ => fallbackMeta

/-- The recursive raycast target set of `intersectObjects(allItems)`: each
item mesh contributes itself and then its child edge line (traversal order of
the recursion). -/
def raycastTargets : List SceneMesh → List SceneObject
  | [] => []
  | m :: rest => SceneObject.mesh m :: SceneObject.child m :: raycastTargets rest

/-- The hits of the pointer ray against the target objects: `ray` is the
intersection oracle giving the ray distance at which a given object identity
is hit, if any. -/
def hitsOf (ray : ℕ → Option ℚ) (os : List SceneObject) : List (SceneObject × ℚ) :=
  os.filterMap fun o => (ray (objectId o)).map fun dist => (o, dist)

/-- Head of the distance-ascending stable sort that `intersectObjects`
returns: the first hit of minimal ray distance. -/
def nearestHit : List (SceneObject × ℚ) → Option (SceneObject × ℚ)
  | [] => none
  | hd :: rest =>
    match nearestHit rest with
    | none => some hd
    | some best => if best.2 < hd.2 then some best else some hd

/-- `handleMouseMove`: intersect the ray against the packed-item and
unpacked-item meshes and, through the recursion of `intersectObjects`, their
child edge lines; the hover state is the metadata (with fallbacks) of the
nearest hit object, and each mesh of `allItems` is flagged highlighted exactly
when it is (`===`) that object; on no hit, the hover state is empty and all
highlight flags are cleared. -/
def pick (ray : ℕ → Option ℚ) (itemMeshes unpackedMeshes : List SceneMesh) :
    Option ItemMeta × List (ℕ × Bool) :=
  let allItems := itemMeshes ++ unpackedMeshes
  match nearestHit (hitsOf ray (raycastTargets allItems)) with
  | some pr => (some (metaOf pr.1), allItems.map fun o => (o.oid, o.oid == objectId pr.1))
  | none => (none, allItems.map fun o => (o.oid, false))

lemma nearestHit_cons_none {rest : List (SceneObject × ℚ)} (hd : SceneObject × ℚ)
    (hr : nearestHit rest = none) : nearestHit (hd :: rest) = some hd := by
  rw [nearestHit, hr]

lemma nearestHit_cons_some {rest : List (SceneObject × ℚ)} (hd best : SceneObject × ℚ)
    (hr : nearestHit rest = some best) :
    nearestHit (hd :: rest) = if best.2 < hd.2 then some best else some hd := by
  rw [nearestHit, hr]

lemma nearestHit_eq_none {l : List (SceneObject × ℚ)} (h : nearestHit l = none) :
    l = [] := by
  cases l with
  | nil => rfl
  | cons hd rest =>
    rcases hr : nearestHit rest with _ | best
    · rw [nearestHit_cons_none hd hr] at h
      cases h
    · rw [nearestHit_cons_some hd best hr] at h
      by_cases hlt : best.2 < hd.2
      · rw [if_pos hlt] at h; cases h
      · rw [if_neg hlt] at h; cases h

lemma nearestHit_mem {l : List (SceneObject × ℚ)} {p : SceneObject × ℚ}
    (h : nearestHit l = some p) : p ∈ l := by
  induction l generalizing p with
  | nil => cases h
  | cons hd rest ih =>
    rcases hr : nearestHit rest with _ | best
    · rw [nearestHit_cons_none hd hr] at h
      cases h
      exact List.mem_cons_self _ _
    · rw [nearestHit_cons_some hd best hr] at h
      by_cases hlt : best.2 < hd.2
      · rw [if_pos hlt] at h
        cases h
        exact List.mem_cons_of_mem _ (ih hr)
      · rw [if_neg hlt] at h
        cases h
        exact List.mem_cons_self _ _

lemma nearestHit_min {l : List (SceneObject × ℚ)} {p : SceneObject × ℚ}
    (h : nearestHit l = some p) : ∀ q ∈ l, p.2 ≤ q.2 := by
  induction l generalizing p with
  | nil => cases h
  | cons hd rest ih =>
    rcases hr : nearestHit rest with _ | best
    · rw [nearestHit_cons_none hd hr] at h
      cases h
      intro q hq
      rcases List.mem_cons.mp hq with rfl | hq2
      · exact le_refl _
      · rw [nearestHit_eq_none hr] at hq2
        cases hq2
    · rw [nearestHit_cons_some hd best hr] at h
      by_cases hlt : best.2 < hd.2
      · rw [if_pos hlt] at h
        cases h
        intro q hq
        rcases List.mem_cons.mp hq with rfl | hq2
        · exact le_of_lt hlt
        · exact ih hr q hq2
      · rw [if_neg hlt] at h
        cases h
        intro q hq
        push_neg at hlt
        rcases List.mem_cons.mp hq with rfl | hq2
        · exact le_refl _
        · exact le_trans hlt (ih hr q hq2)

lemma mem_hitsOf {ray : ℕ → Option ℚ} {os : List SceneObject} {o : SceneObject}
    {dist : ℚ} : (o, dist) ∈ hitsOf ray os ↔ o ∈ os ∧ ray (objectId o) = some dist := by
  unfold hitsOf
  rw [List.mem_filterMap]
  constructor
  · rintro ⟨a, ha, hfa⟩
    rcases hra : ray (objectId a) with _ | d0 <;> rw [hra] at hfa
    · cases hfa
    · rw [Option.map_some', Option.some_inj, Prod.ext_iff] at hfa
      obtain ⟨h1, h2⟩ := hfa
      dsimp only at h1 h2
      subst h1
      subst h2
      exact ⟨ha, hra⟩
  · rintro ⟨hm, hr⟩
    exact ⟨o, hm, by rw [hr]; rfl⟩

lemma hitsOf_congr {ray ray2 : ℕ → Option ℚ} {os : List SceneObject}
    (h : ∀ o ∈ os, ray2 (objectId o) = ray (objectId o)) :
    hitsOf ray2 os = hitsOf ray os := by
  unfold hitsOf
  exact List.filterMap_congr fun o ho => by rw [h o ho]

lemma hitsOf_eq_nil {ray : ℕ → Option ℚ} {os : List SceneObject}
    (h : ∀ o ∈ os, ray (objectId o) = none) : hitsOf ray os = [] := by
  unfold hitsOf
  induction os with
  | nil => rfl
  | cons a rest ih =>
    rw [List.filterMap_cons, h a (List.mem_cons_self _ _)]
    exact ih fun o ho => h o (List.mem_cons_of_mem _ ho)

lemma mesh_mem_raycastTargets {ms : List SceneMesh} {m : SceneMesh} :
    SceneObject.mesh m ∈ raycastTargets ms ↔ m ∈ ms := by
  induction ms with
  | nil => simp [raycastTargets]
  | cons a rest ih => simp [raycastTargets, ih]

lemma child_mem_raycastTargets {ms : List SceneMesh} {p : SceneMesh} :
    SceneObject.child p ∈ raycastTargets ms ↔ p ∈ ms := by
  induction ms with
  | nil => simp [raycastTargets]
  | cons a rest ih => simp [raycastTargets, ih]

lemma oid_sublist_targets (ms : List SceneMesh) :
    (ms.map SceneMesh.oid).Sublist ((raycastTargets ms).map objectId) := by
  induction ms with
  | nil => exact List.Sublist.refl _
  | cons m rest ih =>
    simp only [raycastTargets, List.map_cons]
    exact List.Sublist.cons₂ _ (List.Sublist.cons _ ih)

/-- Whether the nearest hit is an actual item mesh (rather than a child edge
line). -/
def isMeshHit : SceneObject → Bool
  | SceneObject.mesh _ => true
  | SceneObject.child _ => false

/-- C4 counterexample: an item mesh hit at distance 5 whose child edge line is
hit nearer, at distance 3 (a ray grazing the box edge): `intersects[0].object`
is the child, so the hover state is the fallback record ('Unknown Item', zero
dimensions), not the metadata of the hit mesh, and no mesh at all is
highlighted — refuting the claim that a hit always yields the nearest mesh's
metadata with exactly one mesh highlighted. -/
def meshC4c : SceneMesh :=
  ⟨0, 1, ⟨"A", ⟨1, 1, 1⟩, "#10b981", ⟨0, 0, 0⟩, false, false, ⟨0, 0, 0⟩, ""⟩⟩

/-- Ray hitting the mesh at distance 5 and its child edge line at distance 3. -/
def rayC4c : ℕ → Option ℚ := fun i =>
  if i = 0 then some 5 else if i = 1 then some 3 else none

/-- C4 counterexample (see `meshC4c`): a mesh is hit, yet `pick` returns the
empty-`userData` fallback metadata and highlights no mesh. -/
theorem claim_C4_counterexample :
    rayC4c meshC4c.oid = some 5 ∧
    (pick rayC4c [meshC4c] []).1 = some fallbackMeta ∧
    fallbackMeta ≠ meshC4c.meta ∧
    (pick rayC4c [meshC4c] []).2 = [(0, false)] := by
  have hn : nearestHit (hitsOf rayC4c (raycastTargets ([meshC4c] ++ []))) =
      some (SceneObject.child meshC4c, 3) := by
    norm_num [raycastTargets, hitsOf, nearestHit, rayC4c, meshC4c, objectId]
  refine ⟨rfl, ?_, ?_, ?_⟩
  · simp only [pick, hn, metaOf]
  · intro h
    have := congrArg ItemMeta.name h
    simp [fallbackMeta, meshC4c] at this
  · simp only [pick, hn]
    norm_num [meshC4c, objectId]

/-- C4 (amended): the pointer handler intersects the ray against the current
generation's packed and unpacked item meshes and, through the recursion of
`intersectObjects`, their child edge-outline lines (container and decoration
meshes remain excluded: the result is unchanged under any modification of the
ray outside these targets); when nothing is hit it returns no hover state and
clears every highlight flag; when at least one target is hit it
deterministically takes a hit of minimal ray distance, earliest in traversal
order on ties, and (a) if that hit is an item mesh, returns its metadata and
flags exactly the meshes carrying its identity — under distinct identities
exactly one — while (b) if it is a child edge line, returns the documented
fallback metadata and, under distinct identities, flags no mesh at all. -/
theorem claim_C4_pick_amended (ray : ℕ → Option ℚ)
    (itemMeshes unpackedMeshes : List SceneMesh) :
    (∀ ray2 : ℕ → Option ℚ,
      (∀ o ∈ raycastTargets (itemMeshes ++ unpackedMeshes),
        ray2 (objectId o) = ray (objectId o)) →
      pick ray2 itemMeshes unpackedMeshes = pick ray itemMeshes unpackedMeshes) ∧
    ((∀ o ∈ raycastTargets (itemMeshes ++ unpackedMeshes), ray (objectId o) = none) →
      (pick ray itemMeshes unpackedMeshes).1 = none ∧
      ∀ pr ∈ (pick ray itemMeshes unpackedMeshes).2, pr.2 = false) ∧
    (∀ o ∈ raycastTargets (itemMeshes ++ unpackedMeshes), ∀ dist : ℚ,
      ray (objectId o) = some dist →
      ∃ o0 d0, o0 ∈ raycastTargets (itemMeshes ++ unpackedMeshes) ∧
        ray (objectId o0) = some d0 ∧
        (pick ray itemMeshes unpackedMeshes).1 = some (metaOf o0) ∧
        (∀ o2 ∈ raycastTargets (itemMeshes ++ unpackedMeshes), ∀ d2 : ℚ,
          ray (objectId o2) = some d2 → d0 ≤ d2) ∧
        (∀ pr ∈ (pick ray itemMeshes unpackedMeshes).2, pr.2 = (pr.1 == objectId o0)) ∧
        (((raycastTargets (itemMeshes ++ unpackedMeshes)).map objectId).Nodup →
          ((pick ray itemMeshes unpackedMeshes).2.countP fun pr => pr.2) =
            if isMeshHit o0 then 1 else 0)) := by
  refine ⟨?_, ?_, ?_⟩
  · intro ray2 h
    simp only [pick]
    rw [hitsOf_congr h]
  · intro h
    have hn : nearestHit (hitsOf ray (raycastTargets (itemMeshes ++ unpackedMeshes))) =
        none := by
      rw [hitsOf_eq_nil h]
      rfl
    simp only [pick, hn]
    refine ⟨by trivial, ?_⟩
    intro pr hpr
    rw [List.mem_map] at hpr
    obtain ⟨o, -, rfl⟩ := hpr
    rfl
  · intro o ho dist hdist
    rcases hn : nearestHit (hitsOf ray (raycastTargets (itemMeshes ++ unpackedMeshes)))
      with _ | pr
    · exfalso
      have : (o, dist) ∈ hitsOf ray (raycastTargets (itemMeshes ++ unpackedMeshes)) :=
        mem_hitsOf.mpr ⟨ho, hdist⟩
      rw [nearestHit_eq_none hn] at this
      cases this
    · obtain ⟨hmem, hray⟩ := mem_hitsOf.mp (nearestHit_mem hn)
      refine ⟨pr.1, pr.2, hmem, hray, ?_, ?_, ?_, ?_⟩
      · simp only [pick, hn]
      · intro o2 ho2 d2 hd2
        exact nearestHit_min hn (o2, d2) (mem_hitsOf.mpr ⟨ho2, hd2⟩)
      · intro p2 hp2
        simp only [pick, hn] at hp2
        rw [List.mem_map] at hp2
        obtain ⟨a, -, rfl⟩ := hp2
        rfl
      · intro hnd
        simp only [pick, hn]
        rw [List.countP_map, Function.comp_def]
        rcases hobj : pr.1 with m0 | p0
        · rw [hobj] at hmem
          have hm0 : m0 ∈ itemMeshes ++ unpackedMeshes := mesh_mem_raycastTargets.mp hmem
          simp only [isMeshHit, if_pos]
          have hsmall : ((itemMeshes ++ unpackedMeshes).map SceneMesh.oid).Nodup :=
            (oid_sublist_targets (itemMeshes ++ unpackedMeshes)).nodup hnd
          have hcnt : ((itemMeshes ++ unpackedMeshes).countP
              fun a => a.oid == objectId (SceneObject.mesh m0)) =
              ((itemMeshes ++ unpackedMeshes).map SceneMesh.oid).count
                (objectId (SceneObject.mesh m0)) := by
            rw [List.count_eq_countP, List.countP_map]
            rfl
          rw [hcnt]
          exact List.count_eq_one_of_mem hsmall
            (List.mem_map_of_mem SceneMesh.oid hm0)
        · rw [hobj] at hmem
          have hp0 : p0 ∈ itemMeshes ++ unpackedMeshes := child_mem_raycastTargets.mp hmem
          simp only [isMeshHit]
          rw [if_neg (by simp), List.countP_eq_zero]
          intro a ha
          have hamem : SceneObject.mesh a ∈ raycastTargets (itemMeshes ++ unpackedMeshes) :=
            mesh_mem_raycastTargets.mpr ha
          intro heq
          rw [beq_iff_eq] at heq
          exact SceneObject.noConfusion (List.inj_on_of_nodup_map hnd hamem hmem heq)

/-- Two overlapping meshes with distinct identities, both hit at distance 5;
their child edge lines are not hit. -/
def meshC4a : SceneMesh :=
  ⟨0, 2, ⟨"A", ⟨1, 1, 1⟩, "#10b981", ⟨0, 0, 0⟩, false, false, ⟨0, 0, 0⟩, ""⟩⟩

/-- Second mesh sharing the pointer position. -/
def meshC4b : SceneMesh :=
  ⟨1, 3, ⟨"B", ⟨1, 1, 1⟩, "#ef4444", ⟨0, 0, 0⟩, false, true, ⟨0, 0, 0⟩,
    "No space available"⟩⟩

/-- Ray hitting both overlapping meshes at the same distance 5. -/
def rayC4 : ℕ → Option ℚ := fun i =>
  if i = 0 then some 5 else if i = 1 then some 5 else none

/-- Witness for the amended C4 at two overlapping meshes, both hit at
distance 5. -/
theorem claim_C4_witness :
    SceneObject.mesh meshC4a ∈ raycastTargets ([meshC4a] ++ [meshC4b]) ∧
    rayC4 (objectId (SceneObject.mesh meshC4a)) = some 5 ∧
    (∃ o0 d0, o0 ∈ raycastTargets ([meshC4a] ++ [meshC4b]) ∧
      rayC4 (objectId o0) = some d0 ∧
      (pick rayC4 [meshC4a] [meshC4b]).1 = some (metaOf o0) ∧
      (∀ o2 ∈ raycastTargets ([meshC4a] ++ [meshC4b]), ∀ d2 : ℚ,
        rayC4 (objectId o2) = some d2 → d0 ≤ d2) ∧
      (∀ pr ∈ (pick rayC4 [meshC4a] [meshC4b]).2, pr.2 = (pr.1 == objectId o0)) ∧
      (((raycastTargets ([meshC4a] ++ [meshC4b])).map objectId).Nodup →
        ((pick rayC4 [meshC4a] [meshC4b]).2.countP fun pr => pr.2) =
          if isMeshHit o0 then 1 else 0)) :=
  ⟨by simp [raycastTargets], rfl,
   (claim_C4_pick_amended rayC4 [meshC4a] [meshC4b]).2.2 (SceneObject.mesh meshC4a)
     (by simp [raycastTargets]) 5 rfl⟩

end BinPacking
